import Mathlib

/-
Verification development for a 5-minute trading-signal pipeline.

The Python sources are shallowly embedded in Lean:
* prices, volumes and scores are modelled as exact rationals;
* Python `round` (banker's rounding) is modelled by `pyRoundInt` / `pyRoundTo`;
* `collections.deque` with a maximum length is modelled by `dequeAppend`;
* functions that can raise are embedded in `Except String`; a call site whose
  keyword arguments do not match the callee's signature raises `TypeError` in
  Python, and is embedded as `Except.error` with the corresponding message.

Each definition carries a comment naming the source function it embeds.
-/

attribute [local semireducible] Rat.add Rat.mul Rat.inv Rat.sub Rat.ofScientific

/-- Python `round(q)` to an integer: round half to even (banker's rounding). -/
def pyRoundInt (q : ℚ) : ℤ :=
  let f : ℤ := ⌊q⌋
  let r : ℚ := q - (f : ℚ)
  if r < 1/2 then f
  else if 1/2 < r then f + 1
  else if f % 2 = 0 then f else f + 1

/-- Python `round(q, n)` for `n` decimal digits. -/
def pyRoundTo (n : ℕ) (q : ℚ) : ℚ :=
  (pyRoundInt (q * 10 ^ n) : ℚ) / 10 ^ n

/-- One `append` on a `collections.deque` with maximum length `maxlen`:
the new element goes to the right, and the oldest element is evicted from
the left when the deque is at capacity. -/
def dequeAppend {α : Type} (maxlen : ℕ) (h : List α) (b : α) : List α :=
  let h2 := h ++ [b]
  if h2.length ≤ maxlen then h2 else h2.drop (h2.length - maxlen)

/-- Embeds `LiquidityContext` from `strategy/liquidity_filter.py`. -/
structure LiquidityContext where
  state : String
  score : ℚ
  avg_volume : ℚ
  comment : String
  deriving DecidableEq

/-- Embeds `analyze_liquidity` from `strategy/liquidity_filter.py` (lines 13-54).
Defaults at the call sites: `lookback = 30`, `min_avg_volume = 250000`. -/
def analyze_liquidity (volume_history : List ℚ) (lookback : ℕ)
    (min_avg_volume : ℚ) : LiquidityContext :=
  if volume_history = [] ∨ volume_history.length < lookback then
    ⟨"ILLIQUID", -1, 0, "insufficient data"⟩
  else
    let recent := volume_history.drop (volume_history.length - lookback)
    let avg_vol := recent.sum / (lookback : ℚ)
    if avg_vol < min_avg_volume then
      ⟨"ILLIQUID", -1, (pyRoundInt avg_vol : ℚ), "below liquidity threshold"⟩
    else if avg_vol < min_avg_volume * 3 then
      ⟨"TRADABLE", 1/2, (pyRoundInt avg_vol : ℚ), "adequate liquidity"⟩
    else
      ⟨"HIGH_LIQUID", 1, (pyRoundInt avg_vol : ℚ), "high liquidity"⟩

/-- Embeds `VolumeContext` from `strategy/volume_filter.py`. -/
structure VolumeContext where
  state : String
  score : ℚ
  rel_volume : ℚ
  avg_volume : ℚ
  comment : String
  deriving DecidableEq

/-- Embeds `analyze_volume` from `strategy/volume_filter.py` (lines 14-63).
Its Python signature is `analyze_volume(volume_history, lookback=20)`: it has
no `close_prices` parameter, so the call
`analyze_volume(volumes, close_prices=closes)` in `decision_engine.py`
line 101 and `pullback_detector.py` line 93 raises `TypeError`. -/
def analyze_volume (volume_history : List ℚ) (lookback : ℕ) : VolumeContext :=
  if volume_history = [] ∨ volume_history.length < lookback then
    ⟨"LOW", -1/2, 0, 0, "insufficient volume"⟩
  else
    let recent := volume_history.drop (volume_history.length - lookback)
    let avg_vol := recent.sum / (lookback : ℚ)
    let current := volume_history.getD (volume_history.length - 1) 0
    if avg_vol ≤ 0 then ⟨"LOW", -1/2, 0, 0, "zero volume"⟩
    else
      let rel := current / avg_vol
      if rel < 7/10 then
        ⟨"LOW", -6/10, pyRoundTo 2 rel, (pyRoundInt avg_vol : ℚ), "low participation"⟩
      else if rel < 14/10 then
        ⟨"NORMAL", 6/10, pyRoundTo 2 rel, (pyRoundInt avg_vol : ℚ), "normal participation"⟩
      else
        ⟨"HIGH", 12/10, pyRoundTo 2 rel, (pyRoundInt avg_vol : ℚ), "high participation"⟩

/-- Embeds `VolatilityContext` from `strategy/volatility_filter.py`. -/
structure VolatilityContext where
  state : String
  score : ℚ
  atr : ℚ
  vol_norm : ℚ
  comment : String
  deriving DecidableEq

/-- Embeds `compute_true_range` from `strategy/volatility_filter.py` (lines 9-21)
(the same function also appears verbatim in `strategy/market_regime.py`).
List indexing is total (`getD` with default 0); every theorem below only uses
it on inputs where all accessed indices are in bounds. -/
def compute_true_range (highs lows closes : List ℚ) : List ℚ :=
  if highs.length < 2 then []
  else
    (List.range (highs.length - 1)).map (fun j =>
      let i := j + 1
      max (highs.getD i 0 - lows.getD i 0)
        (max (|highs.getD i 0 - closes.getD (i - 1) 0|)
          (|lows.getD i 0 - closes.getD (i - 1) 0|)))

/-- Embeds `compute_atr` from `strategy/volatility_filter.py` (lines 24-33)
(also verbatim in `strategy/market_regime.py`). Default `period = 14`. -/
def compute_atr (highs lows closes : List ℚ) (period : ℕ) : Option ℚ :=
  let tr := compute_true_range highs lows closes
  if tr.length < period then none
  else some ((tr.drop (tr.length - period)).sum / (period : ℚ))

/-- Embeds `analyze_volatility` from `strategy/volatility_filter.py`
(lines 53-99). Its Python signature is `analyze_volatility(highs, lows, closes)`
taking three lists; the call sites in `decision_engine.py` line 116
(`analyze_volatility(move, atr)`: two scalars) and `pullback_detector.py`
lines 62-65 (`analyze_volatility(current_move=..., atr_value=...)`: unknown
keyword arguments) do not match this signature and raise `TypeError`. -/
def analyze_volatility (highs lows closes : List ℚ) : VolatilityContext :=
  match compute_atr highs lows closes 14 with
  | none => ⟨"LOW", -1/2, 0, 0, "insufficient data"⟩
  | some atr =>
    if closes.length < 10 then ⟨"LOW", -1/2, 0, 0, "insufficient data"⟩
    else
      let avg_price := (closes.drop (closes.length - 10)).sum / 10
      let vol_norm := if 0 < avg_price then atr / avg_price else 0
      if vol_norm < 2/1000 then
        ⟨"LOW", -6/10, pyRoundTo 6 atr, pyRoundTo 4 vol_norm, "low volatility"⟩
      else if vol_norm < 6/1000 then
        ⟨"NORMAL", 8/10, pyRoundTo 6 atr, pyRoundTo 4 vol_norm, "tradable volatility"⟩
      else
        ⟨"HIGH", -4/10, pyRoundTo 6 atr, pyRoundTo 4 vol_norm, "high volatility"⟩

/-- Embeds the `+DM` / `-DM` loop of `compute_adx` from
`strategy/market_regime.py` (lines 35-42): entry `j` holds the pair
`(plus_dm[j], minus_dm[j])` for source index `i = j + 1`. -/
def dm_list (highs lows : List ℚ) : List (ℚ × ℚ) :=
  (List.range (highs.length - 1)).map (fun j =>
    let i := j + 1
    let up := highs.getD i 0 - highs.getD (i - 1) 0
    let down := lows.getD (i - 1) 0 - lows.getD i 0
    ((if up > down ∧ up > 0 then up else 0),
     (if down > up ∧ down > 0 then down else 0)))

/-- The `plus_di` value of `compute_adx` (`strategy/market_regime.py`
line 48): `(sum(plus_dm[-period:]) / atr) * 100`. -/
def plus_di_val (highs lows : List ℚ) (period : ℕ) (atr : ℚ) : ℚ :=
  let plus_dm := (dm_list highs lows).map Prod.fst
  ((plus_dm.drop (plus_dm.length - period)).sum / atr) * 100

/-- The `minus_di` value of `compute_adx` (`strategy/market_regime.py`
line 49): `(sum(minus_dm[-period:]) / atr) * 100`. -/
def minus_di_val (highs lows : List ℚ) (period : ℕ) (atr : ℚ) : ℚ :=
  let minus_dm := (dm_list highs lows).map Prod.snd
  ((minus_dm.drop (minus_dm.length - period)).sum / atr) * 100

/-- Embeds `compute_adx` from `strategy/market_regime.py` (lines 31-55). -/
def compute_adx (highs lows closes : List ℚ) (period : ℕ) : Option ℚ :=
  if highs.length < period + 1 then none
  else
    match compute_atr highs lows closes period with
    | none => none
    | some atr =>
      if atr = 0 then none
      else
        let plus_di := plus_di_val highs lows period atr
        let minus_di := minus_di_val highs lows period atr
        if plus_di + minus_di = 0 then some 0
        else some (|plus_di - minus_di| / (plus_di + minus_di) * 100)

/-- An SR zone as built by `_cluster_levels` in `strategy/sr_levels.py`:
`level`, member `count`, `strength = min(count, 5)`. -/
structure Zone where
  level : ℚ
  count : ℕ
  strength : ℕ
  deriving DecidableEq

/-- Insert into an ascending list, keeping earlier elements first on ties
(stable, like Python `sorted`). -/
def insertAsc (x : ℚ) : List ℚ → List ℚ
  | [] => [x]
  | y :: ys => if x ≤ y then x :: y :: ys else y :: insertAsc x ys

/-- Stable ascending sort, embedding Python `sorted` on numbers. -/
def pySorted (l : List ℚ) : List ℚ := l.foldr insertAsc []

/-- One iteration of the clustering loop of `_cluster_levels`
(`strategy/sr_levels.py` lines 79-87): state is
(finished clusters, current cluster). -/
def cluster_step (tol_pct : ℚ) (st : List (List ℚ) × List ℚ) (p : ℚ) :
    List (List ℚ) × List ℚ :=
  let avg := st.2.sum / (st.2.length : ℚ)
  let tol := avg * tol_pct
  if |p - avg| ≤ tol then (st.1, st.2 ++ [p])
  else (st.1 ++ [st.2], [p])

/-- Embeds `_cluster_levels` from `strategy/sr_levels.py` (lines 66-100).
Default `tol_pct = 0.0045`. -/
def cluster_levels (peaks : List ℚ) (tol_pct : ℚ) : List Zone :=
  match pySorted peaks with
  | [] => []
  | p0 :: rest =>
    let st := rest.foldl (cluster_step tol_pct) ([], [p0])
    let clusters := st.1 ++ [st.2]
    clusters.map (fun c =>
      ⟨pyRoundTo 6 (c.sum / (c.length : ℚ)), c.length, min c.length 5⟩)

/-- Embeds `_find_local_extrema` from `strategy/sr_levels.py` (lines 36-60):
returns `(maxima, minima)` as (index, value) pairs over a centered window. -/
def find_local_extrema (values : List ℚ) (window : ℕ) :
    List (ℕ × ℚ) × List (ℕ × ℚ) :=
  let n := values.length
  if n < window * 2 + 1 then ([], [])
  else
    let half := window / 2
    let idxs := (List.range (n - 2 * half)).map (· + half)
    let neighbors := fun (i : ℕ) =>
      ((values.drop (i - half)).take half) ++ ((values.drop (i + 1)).take half)
    let maxima := idxs.filterMap (fun i =>
      let center := values.getD i 0
      if (neighbors i).all (fun x => decide (x ≤ center)) then some (i, center)
      else none)
    let minima := idxs.filterMap (fun i =>
      let center := values.getD i 0
      if (neighbors i).all (fun x => decide (center ≤ x)) then some (i, center)
      else none)
    (maxima, minima)

/-- Stable insertion by zone level, ascending (Python
`sorted(..., key=lambda x: x["level"])`). -/
def insertZoneAsc (z : Zone) : List Zone → List Zone
  | [] => [z]
  | y :: ys => if z.level ≤ y.level then z :: y :: ys else y :: insertZoneAsc z ys

/-- Stable insertion by zone level, descending (Python
`sorted(..., key=..., reverse=True)`). -/
def insertZoneDesc (z : Zone) : List Zone → List Zone
  | [] => [z]
  | y :: ys => if y.level ≤ z.level then z :: y :: ys else y :: insertZoneDesc z ys

/-- The support/resistance zone sets returned by `compute_sr_levels`. -/
structure SRLevels where
  supports : List Zone
  resistances : List Zone
  deriving DecidableEq

/-- Embeds `compute_sr_levels` from `strategy/sr_levels.py` (lines 106-145).
Defaults: `lookback = 225` (240 at the pullback-detector call site),
`extrema_window = 9`, `cluster_tol_pct = 0.0045`, `max_levels = 3`. -/
def compute_sr_levels (highs lows : List ℚ) (lookback : ℕ)
    (extrema_window : ℕ) (cluster_tol_pct : ℚ) (max_levels : ℕ) : SRLevels :=
  let highs_s := highs.drop (highs.length - lookback)
  let lows_s := lows.drop (lows.length - lookback)
  if highs_s = [] ∨ lows_s = [] then ⟨[], []⟩
  else
    let resistances := (find_local_extrema highs_s extrema_window).1.map Prod.snd
    let supports := (find_local_extrema lows_s extrema_window).2.map Prod.snd
    let resist_clusters := cluster_levels resistances cluster_tol_pct
    let supp_clusters := cluster_levels supports cluster_tol_pct
    ⟨(supp_clusters.foldr insertZoneAsc []).take max_levels,
     (resist_clusters.foldr insertZoneDesc []).take max_levels⟩

/-- The nearest-SR record built by `get_nearest_sr` in `strategy/sr_levels.py`
(dict keys `type`, `level`, `dist_pct`, `strength`). -/
structure NearestSR where
  typ : String
  level : ℚ
  dist_pct : ℚ
  strength : ℚ
  deriving DecidableEq

/-- One candidate step of the best-so-far loops in `get_nearest_sr`
(`strategy/sr_levels.py` lines 170-194); `none` plays the role of the
initial `best = None` with `best_dist = inf`. -/
def considerSR (price : ℚ) (typ : String) (z : Zone) (acc : Option NearestSR) :
    Option NearestSR :=
  let dist :=
    if typ = "support" then |price - z.level| / max z.level (1 / 10 ^ 9)
    else |z.level - price| / max price (1 / 10 ^ 9)
  match acc with
  | none => some ⟨typ, z.level, dist, (z.strength : ℚ)⟩
  | some b => if dist < b.dist_pct then some ⟨typ, z.level, dist, (z.strength : ℚ)⟩ else acc

/-- Embeds `get_nearest_sr` from `strategy/sr_levels.py` (lines 151-199).
Default `max_search_pct = 0.035` (0.02 at the pullback-detector call site). -/
def get_nearest_sr (price : ℚ) (sr : SRLevels) (max_search_pct : ℚ) :
    Option NearestSR :=
  let afterSupports := sr.supports.foldl (fun acc z => considerSR price "support" z acc) none
  let best := sr.resistances.foldl (fun acc z => considerSR price "resistance" z acc) afterSupports
  match best with
  | none => none
  | some b => if b.dist_pct ≤ max_search_pct then some b else none

/-- Embeds `VWAPContext` from `strategy/vwap_filter.py`. -/
structure VWAPContext where
  vwap : Option ℚ
  distance_pct : ℚ
  slope : ℚ
  acceptance : String
  pressure : String
  score : ℚ
  comment : String
  deriving DecidableEq

/-- The pullback-signal mapping built by `detect_pullback_signal`
(`strategy/pullback_detector.py` lines 141-153) and consumed by
`final_trade_decision`, which reads only the `direction` and `nearest_level`
keys (the `components` and `context` sub-mappings are never read by any
function under verification and are omitted). -/
structure PullbackSignal where
  signal : String
  direction : String
  score : ℚ
  nearest_level : Option NearestSR
  reason : String
  deriving DecidableEq

/-- Embeds `DecisionResult` from `strategy/decision_engine.py` (lines 16-22);
the `components` mapping is a key-value list. -/
structure DecisionResult where
  state : String
  score : ℚ
  direction : Option String
  components : List (String × ℚ)
  reason : String
  deriving DecidableEq

/-- Embeds `final_trade_decision` from `strategy/decision_engine.py`
(lines 29-186).

Control flow of the source, in order:
* line 42: no pullback signal, return IGNORE;
* lines 61-65: HTF mismatch, return IGNORE;
* line 74: `market_regime in ("WEAK", "COMPRESSION")`, return IGNORE
  (lines 77-82 add a regime bonus only for the strings `EARLY_TREND` and
  `TRENDING`);
* lines 88-92: VWAP acceptance on the wrong side, return IGNORE;
* line 101: `analyze_volume(volumes, close_prices=closes)` — `analyze_volume`
  has no `close_prices` parameter, so Python raises `TypeError` here on every
  evaluation that reaches the volume gate, making lines 103-186 (volume,
  volatility, liquidity, price action, SR location, clamping and the final
  EXECUTE/PREPARE classification) unreachable.

All reachable returns before line 101 carry score 0 and an empty component
mapping, so the running `score`/`components` accumulation of lines 47-95 is
unobservable and not tracked. -/
def final_trade_decision (inst_key : String)
    (prices highs lows closes volumes : List ℚ)
    (market_regime htf_bias_direction : String) (vwap_ctx : VWAPContext)
    (pullback_signal : Option PullbackSignal) : Except String DecisionResult :=
  match pullback_signal with
  | none => .ok ⟨"IGNORE", 0, none, [], "no pullback"⟩
  | some ps =>
    let direction := ps.direction
    if direction = "LONG" ∧ htf_bias_direction ≠ "BULLISH" then
      .ok ⟨"IGNORE", 0, none, [], "htf mismatch"⟩
    else if direction = "SHORT" ∧ htf_bias_direction ≠ "BEARISH" then
      .ok ⟨"IGNORE", 0, none, [], "htf mismatch"⟩
    else if market_regime = "WEAK" ∨ market_regime = "COMPRESSION" then
      .ok ⟨"IGNORE", 0, none, [], "bad regime"⟩
    else if direction = "LONG" ∧ vwap_ctx.acceptance = "BELOW" then
      .ok ⟨"IGNORE", 0, none, [], "below vwap"⟩
    else if direction = "SHORT" ∧ vwap_ctx.acceptance = "ABOVE" then
      .ok ⟨"IGNORE", 0, none, [], "above vwap"⟩
    else
      .error "TypeError: analyze_volume got an unexpected keyword argument close_prices"

/-- Embeds `detect_pullback_signal` from `strategy/pullback_detector.py`
(lines 8-153). Defaults: `max_proximity = 0.02`, `min_bars = 30`.

Control flow of the source, in order:
* line 24: fewer than `min_bars` closes, return None;
* lines 33-37: SR zones over the series, nearest within `max_proximity`,
  return None when absent;
* lines 40-45: direction from SR type + HTF alignment, else return None;
* lines 51-56: overextension guard (`if atr:` is Python truthiness, so the
  guard is skipped when the ATR is None or exactly 0);
* lines 62-65: `analyze_volatility(current_move=..., atr_value=...)` —
  `analyze_volatility(highs, lows, closes)` accepts neither keyword, so
  Python raises `TypeError` here on every evaluation that reaches the
  volatility step, making lines 67-153 (rejection, volume, reaction,
  location scoring — itself `round(location_score, 2.5)`, a second
  `TypeError` — and the CONFIRMED/POTENTIAL classification) unreachable. -/
def detect_pullback_signal (highs lows closes volumes : List ℚ)
    (htf_direction : String) (max_proximity : ℚ) (min_bars : ℕ) :
    Except String (Option PullbackSignal) :=
  if closes.length < min_bars then .ok none
  else
    let price := closes.getD (closes.length - 1) 0
    let sr := compute_sr_levels highs lows 240 9 (45 / 10000) 3
    match get_nearest_sr price sr max_proximity with
    | none => .ok none
    | some nearest =>
      let dirOpt : Option String :=
        if nearest.typ = "support" ∧ htf_direction = "BULLISH" then some "LONG"
        else if nearest.typ = "resistance" ∧ htf_direction = "BEARISH" then some "SHORT"
        else none
      match dirOpt with
      | none => .ok none
      | some _ =>
        let atr := compute_atr highs lows closes 14
        let overextended : Bool :=
          match atr with
          | some a =>
            if a ≠ 0 ∧ |closes.getD (closes.length - 1) 0 - closes.getD (closes.length - 6) 0| > a * (22 / 10)
            then true else false
          | none => false
        if overextended then .ok none
        else .error "TypeError: analyze_volatility got an unexpected keyword argument current_move"

/-- The per-instrument 5-minute buffer of `Candle5mBuilder`
(`strategy/candle_5m_builder.py` lines 52-59): keys
`time, open, high, low, close, volume`. Timestamps are modelled as absolute
minutes (an ISO timestamp with seconds and sub-seconds zeroed); since every
whole hour is a multiple of 5 minutes, flooring the minute-of-hour to a
multiple of 5 (`_floor_5m`) coincides with flooring absolute minutes. -/
structure Buf5m where
  time : ℕ
  open_p : ℚ
  high : ℚ
  low : ℚ
  close : ℚ
  volume : ℚ
  deriving DecidableEq

/-- Embeds `_floor_5m` from `strategy/candle_5m_builder.py` (lines 18-22). -/
def floor_5m (t : ℕ) : ℕ := 5 * (t / 5)

/-- The per-instrument state of `Candle5mBuilder`: the current buffer and
the last closed bucket time (`_buffers[inst]` and `_last_5m_time[inst]`). -/
structure BuilderState where
  buffer : Option Buf5m
  last_5m_time : Option ℕ
  deriving DecidableEq

/-- Embeds `Candle5mBuilder.update` from `strategy/candle_5m_builder.py`
(lines 24-70) for one instrument: returns the Bool result and the new state. -/
def Candle5mBuilder.update (st : BuilderState) (time_m : ℕ)
    (open_p high_p low_p close_p volume : ℚ) : Bool × BuilderState :=
  let bucket := floor_5m time_m
  match st.buffer with
  | none =>
    (false, ⟨some ⟨bucket, open_p, high_p, low_p, close_p, volume⟩, st.last_5m_time⟩)
  | some buf =>
    if buf.time ≠ bucket then
      (true, ⟨some ⟨bucket, open_p, high_p, low_p, close_p, volume⟩, some buf.time⟩)
    else
      (false, ⟨some ⟨buf.time, buf.open_p, max buf.high high_p, min buf.low low_p,
        close_p, buf.volume + volume⟩, st.last_5m_time⟩)

/-- A 1-minute input bar for the builder: (time in minutes, O, H, L, C, V). -/
def InBar : Type := ℕ × ℚ × ℚ × ℚ × ℚ × ℚ

/-- Feed a sequence of 1-minute bars to `Candle5mBuilder.update`, collecting
the Bool returned by each call. -/
def run5m (st : BuilderState) (bars : List InBar) : List Bool × BuilderState :=
  bars.foldl (fun acc bar =>
    let r := Candle5mBuilder.update acc.2 bar.1 bar.2.1 bar.2.2.1 bar.2.2.2.1
      bar.2.2.2.2.1 bar.2.2.2.2.2
    (acc.1 ++ [r.1], r.2)) ([], st)

/-- A stored OHLCV bar of `MarketScanner` (`strategy/scanner.py` lines 93-100). -/
structure OhlcBar where
  time : ℕ
  open_p : ℚ
  high : ℚ
  low : ℚ
  close : ℚ
  volume : ℚ
  deriving DecidableEq

/-- Embeds the history mutation of `MarketScanner.append_ohlc_bar`
(`strategy/scanner.py` lines 77-113) for one instrument: `_ensure_inst`
creates `deque(maxlen=max_len)` and `append` pushes the bar, evicting the
oldest when at capacity. Locks, the `bars_closed` counter and the
swallowed-error callback dispatch do not affect the stored history. -/
def MarketScanner.append_ohlc_bar (max_len : ℕ) (hist : List OhlcBar)
    (bar : OhlcBar) : List OhlcBar :=
  dequeAppend max_len hist bar

/-- The state of `VWAPCalculator` (`strategy/vwap_filter.py` lines 34-46). -/
structure VWAPState where
  window : Option ℕ
  slope_window : ℕ
  price_volume_sum : ℚ
  volume_sum : ℚ
  price_volume_deque : List ℚ
  volume_deque : List ℚ
  vwap_history : List ℚ
  deriving DecidableEq

/-- Python truthiness of the `window` attribute (`if self.window:`):
true iff it is neither `None` nor 0. -/
def windowTruthy : Option ℕ → Bool
  | none => false
  | some w => w != 0

/-- Embeds `VWAPCalculator.update` from `strategy/vwap_filter.py`
(lines 63-81): `Option ℚ` inputs model Python `None`. -/
def VWAPCalculator.update (s : VWAPState) (price volume : Option ℚ) :
    Option ℚ × VWAPState :=
  match price, volume with
  | none, _ => (none, s)
  | _, none => (none, s)
  | some p, some v =>
    if v ≤ 0 then (none, s)
    else
      let s1 :=
        if windowTruthy s.window then
          let w := s.window.getD 0
          let pvd := dequeAppend w s.price_volume_deque (p * v)
          let vd := dequeAppend w s.volume_deque v
          { s with price_volume_deque := pvd, volume_deque := vd,
                   price_volume_sum := pvd.sum, volume_sum := vd.sum }
        else
          { s with price_volume_sum := s.price_volume_sum + p * v,
                   volume_sum := s.volume_sum + v }
      if s1.volume_sum ≤ 0 then (none, s1)
      else
        let vwap := s1.price_volume_sum / s1.volume_sum
        (some vwap, { s1 with vwap_history := dequeAppend s1.slope_window s1.vwap_history vwap })

/-- Embeds `VWAPCalculator.get_vwap` from `strategy/vwap_filter.py`
(lines 86-89). -/
def VWAPCalculator.get_vwap (s : VWAPState) : Option ℚ :=
  if s.volume_sum ≤ 0 then none else some (s.price_volume_sum / s.volume_sum)

/-- Decidable equality for `Except`, needed to evaluate embedded fallible
functions on concrete inputs. -/
instance instDecEqExceptEmb {ε α : Type} [DecidableEq ε] [DecidableEq α] :
    DecidableEq (Except ε α)
  | Except.ok a, Except.ok b =>
    match decEq a b with
    | isTrue h => isTrue (congrArg Except.ok h)
    | isFalse h => isFalse (fun hh => h (Except.ok.inj hh))
  | Except.ok _, Except.error _ => isFalse (fun hh => Except.noConfusion hh)
  | Except.error _, Except.ok _ => isFalse (fun hh => Except.noConfusion hh)
  | Except.error e, Except.error f =>
    match decEq e f with
    | isTrue h => isTrue (congrArg Except.error h)
    | isFalse h => isFalse (fun hh => h (Except.error.inj hh))

/-- A VWAP context that passes the LONG-side VWAP gate (acceptance ABOVE). -/
def vwapAbove : VWAPContext :=
  ⟨some 100, 1/2, 1/1000, "ABOVE", "BUYING", 3/2, "Above VWAP with rising slope"⟩

/-- A VWAP context with acceptance NEAR (passes the gate for both sides). -/
def vwapNear : VWAPContext :=
  ⟨some 50, 0, 0, "NEAR", "NEUTRAL", 0, "Near VWAP"⟩

/-- A CONFIRMED LONG pullback signal. -/
def confirmedLong : PullbackSignal :=
  ⟨"CONFIRMED", "LONG", 5, none, "CONFIRMED_LONG"⟩

/-- A POTENTIAL LONG pullback signal with total score 3.4. -/
def potentialLong : PullbackSignal :=
  ⟨"POTENTIAL", "LONG", 17/5, none, "POTENTIAL_LONG"⟩

/-- Claim C1. The claim states that `final_trade_decision` completes and
returns a `DecisionResult` without raising for every input with a present
pullback signal and non-empty highs/lows/closes/volumes, and that the calls
`analyze_volume(volumes, close_prices=closes)` and
`analyze_volatility(move, atr)` at gates 5 and 6 are well-typed. The code
violates this: `analyze_volume` accepts no `close_prices` keyword, so the
volume gate raises `TypeError` for this input that passes gates 1-4
(CONFIRMED LONG pullback, BULLISH bias, TRENDING regime, VWAP acceptance
ABOVE, all four lists non-empty). -/
theorem final_trade_decision_raises_at_volume_gate :
    final_trade_decision "INST1" [100] [101] [99] [100] [1000]
      "TRENDING" "BULLISH" vwapAbove (some confirmedLong)
    = Except.error "TypeError: analyze_volume got an unexpected keyword argument close_prices" := by
  decide

/-- Claim C2 counterexample. With a POTENTIAL-classified LONG pullback signal
(total score 3.4) and a BEARISH higher-timeframe bias, the claim demands
state `PREPARE_LONG` with score 3.4 via the POTENTIAL short-circuit; the code
has no such short-circuit and returns IGNORE from the HTF-mismatch gate. -/
theorem potential_not_short_circuited_cex :
    final_trade_decision "INST2" [10] [11] [9] [10] [500]
      "TRENDING" "BEARISH" vwapNear (some potentialLong)
    = Except.ok ⟨"IGNORE", 0, none, [], "htf mismatch"⟩ ∧
    ∀ comps reason,
      final_trade_decision "INST2" [10] [11] [9] [10] [500]
        "TRENDING" "BEARISH" vwapNear (some potentialLong)
      ≠ Except.ok ⟨"PREPARE_LONG", 17/5, some "LONG", comps, reason⟩ := by
  refine ⟨by decide, ?_⟩
  intro comps reason h
  rw [show final_trade_decision "INST2" [10] [11] [9] [10] [500]
      "TRENDING" "BEARISH" vwapNear (some potentialLong)
    = Except.ok ⟨"IGNORE", 0, none, [], "htf mismatch"⟩ from by decide] at h
  simp at h

/-- Claim C2 as amended: `final_trade_decision` never reads the pullback
signal's classification field, so a POTENTIAL signal is processed through
exactly the same fusion gates as a CONFIRMED one (no short-circuit to
PREPARE with the pullback's own score exists). -/
theorem final_trade_decision_ignores_signal_classification
    (inst_key : String) (prices highs lows closes volumes : List ℚ)
    (market_regime htf_bias_direction : String) (vwap_ctx : VWAPContext)
    (ps : PullbackSignal) (s : String) :
    final_trade_decision inst_key prices highs lows closes volumes
      market_regime htf_bias_direction vwap_ctx (some {ps with signal := s})
    = final_trade_decision inst_key prices highs lows closes volumes
      market_regime htf_bias_direction vwap_ctx (some ps) := by
  cases ps
  rfl

set_option maxRecDepth 100000 in
/-- Claim C3. The first half of the claim holds: 30 volume entries averaging
100000 (below the 250000 threshold) yield state ILLIQUID with score exactly
-1, as does a 10-entry history (insufficient). The second half fails on the
code: with such volumes and an input that passes gates 1-4, the claimed
liquidity veto at gate 7 is never reached, because gate 5 raises `TypeError`
first — `final_trade_decision` raises instead of returning IGNORE. -/
theorem illiquid_input_decision_raises :
    analyze_liquidity (List.replicate 30 100000) 30 250000
      = ⟨"ILLIQUID", -1, 100000, "below liquidity threshold"⟩ ∧
    analyze_liquidity (List.replicate 10 1000000) 30 250000
      = ⟨"ILLIQUID", -1, 0, "insufficient data"⟩ ∧
    final_trade_decision "INST3" (List.replicate 30 50) (List.replicate 30 51)
      (List.replicate 30 49) (List.replicate 30 50) (List.replicate 30 100000)
      "TRENDING" "BULLISH" vwapAbove (some confirmedLong)
    = Except.error "TypeError: analyze_volume got an unexpected keyword argument close_prices" := by
  refine ⟨by decide, by decide, ?_⟩
  decide

/-- Claim C4. The regime gate of `final_trade_decision` (decision_engine.py
lines 74-82) vetoes only the strings WEAK and COMPRESSION and grants a bonus
only to EARLY_TREND and TRENDING — none of which `detect_market_regime` ever
emits (it produces RANGE, TREND, STRONG_TREND). With `market_regime = RANGE`
and everything else aligned, the code does not return IGNORE at the regime
gate as claimed: it falls through and raises `TypeError` at the volume gate.
TREND and STRONG_TREND likewise receive no bonus and fall through to the
same `TypeError`; the veto fires only for WEAK and COMPRESSION. -/
theorem range_regime_not_vetoed :
    final_trade_decision "INST4" [50, 51] [51, 52] [49, 50] [50, 51] [10, 20]
      "RANGE" "BULLISH" vwapNear (some confirmedLong)
    = Except.error "TypeError: analyze_volume got an unexpected keyword argument close_prices" ∧
    final_trade_decision "INST4" [50, 51] [51, 52] [49, 50] [50, 51] [10, 20]
      "TREND" "BULLISH" vwapNear (some confirmedLong)
    = Except.error "TypeError: analyze_volume got an unexpected keyword argument close_prices" ∧
    final_trade_decision "INST4" [50, 51] [51, 52] [49, 50] [50, 51] [10, 20]
      "STRONG_TREND" "BULLISH" vwapNear (some confirmedLong)
    = Except.error "TypeError: analyze_volume got an unexpected keyword argument close_prices" ∧
    final_trade_decision "INST4" [50, 51] [51, 52] [49, 50] [50, 51] [10, 20]
      "WEAK" "BULLISH" vwapNear (some confirmedLong)
    = Except.ok ⟨"IGNORE", 0, none, [], "bad regime"⟩ ∧
    final_trade_decision "INST4" [50, 51] [51, 52] [49, 50] [50, 51] [10, 20]
      "COMPRESSION" "BULLISH" vwapNear (some confirmedLong)
    = Except.ok ⟨"IGNORE", 0, none, [], "bad regime"⟩ := by
  refine ⟨by decide, by decide, by decide, by decide, by decide⟩

set_option maxRecDepth 100000 in
/-- Claim C5. This 30-bar fixture (constant highs 101, lows 100, closes
100.2, volumes 1000, BULLISH bias) meets the minimum bar count, has its
nearest SR zone (the support cluster at 100, distance 0.2 percent) aligned
with the bias, and passes the overextension guard (ATR 1, recent swing 0).
The claim says the detector now proceeds to scoring and classifies by the
4.8 / 3.2 thresholds; instead the code raises `TypeError` at the
`analyze_volatility(current_move=..., atr_value=...)` call (and its scoring
stage would raise again at `round(location_score, 2.5)`), so the scoring
stage is unreachable for every input. -/
theorem detect_pullback_raises_before_scoring :
    detect_pullback_signal (List.replicate 30 101) (List.replicate 30 100)
      (List.replicate 30 (100.2 : ℚ)) (List.replicate 30 1000) "BULLISH" (2/100) 30
    = Except.error "TypeError: analyze_volatility got an unexpected keyword argument current_move" := by
  decide

/-- Claim C8. Clustering the resistance peak values
100, 100.1, 100.2, 150, 150.3 with the 0.45 percent tolerance yields exactly
two zones: level 100.1 with member count 3 and level 150.15 with member
count 2, each with strength = min(count, 5) (here 3 and 2). -/
theorem cluster_levels_fixture :
    cluster_levels [100, 100.1, 100.2, 150, 150.3] (45/10000)
      = [⟨100.1, 3, 3⟩, ⟨150.15, 2, 2⟩] ∧
    ((cluster_levels [100, 100.1, 100.2, 150, 150.3] (45/10000)).map
      (fun z => decide (z.strength = min z.count 5))).all id = true := by
  refine ⟨by decide, by decide⟩

/-- Claim C6. For the 5-minute aggregator: `update` returns true exactly when
a buffer already existed and the incoming bar's timestamp floors to a
different 5-minute bucket; a bar inside the current bucket updates the buffer
with high = max, low = min, close = last, volume = running sum and returns
false; and five bars inside one bucket followed by one bar in the next bucket
return false, false, false, false, false, true. -/
theorem candle5m_update_spec :
    (∀ (st : BuilderState) (t : ℕ) (o h l c v : ℚ),
      (Candle5mBuilder.update st t o h l c v).1 = true ↔
        ∃ buf, st.buffer = some buf ∧ buf.time ≠ floor_5m t) ∧
    (∀ (st : BuilderState) (buf : Buf5m) (t : ℕ) (o h l c v : ℚ),
      st.buffer = some buf → buf.time = floor_5m t →
      Candle5mBuilder.update st t o h l c v =
        (false, ⟨some ⟨buf.time, buf.open_p, max buf.high h, min buf.low l, c,
          buf.volume + v⟩, st.last_5m_time⟩)) ∧
    (run5m ⟨none, none⟩ [(600, 1, 2, 1, 2, 10), (601, 2, 3, 1, 2, 5),
      (602, 2, 2, 1, 1, 5), (603, 1, 2, 1, 2, 5), (604, 2, 4, 2, 3, 5),
      (605, 3, 3, 2, 3, 5)]).1 = [false, false, false, false, false, true] := by
  refine ⟨?_, ?_, by decide⟩
  · intro st t o h l c v
    cases hb : st.buffer with
    | none => simp [Candle5mBuilder.update, hb]
    | some buf =>
      by_cases hne : buf.time = floor_5m t
      · simp [Candle5mBuilder.update, hb, hne]
      · simp [Candle5mBuilder.update, hb, hne]
  · intro st buf t o h l c v hb ht
    simp [Candle5mBuilder.update, hb, ht]

/-- Witness for C6: one in-bucket update (buffer bucket 600, incoming minute
601) aggregates high/low/close/volume and returns false. -/
theorem candle5m_update_spec_witness :
    Candle5mBuilder.update ⟨some ⟨600, 1, 2, 1, 2, 10⟩, none⟩ 601 3 4 (1/2) 3 7
      = (false, ⟨some ⟨600, 1, max 2 4, min 1 (1/2), 3, 10 + 7⟩, none⟩) :=
  candle5m_update_spec.2.1 ⟨some ⟨600, 1, 2, 1, 2, 10⟩, none⟩ ⟨600, 1, 2, 1, 2, 10⟩
    601 3 4 (1/2) 3 7 rfl (by decide)

/-- A deque append always equals dropping the overflow from the front of the
extended list (the dropped count is 0 while under capacity). -/
theorem dequeAppend_eq_drop {α : Type} (L : ℕ) (h : List α) (b : α) :
    dequeAppend L h b = (h ++ [b]).drop ((h.length + 1) - L) := by
  show (if (h ++ [b]).length ≤ L then h ++ [b]
      else (h ++ [b]).drop ((h ++ [b]).length - L))
    = (h ++ [b]).drop ((h.length + 1) - L)
  by_cases hle : (h ++ [b]).length ≤ L
  · rw [if_pos hle]
    have h0 : h.length + 1 - L = 0 := by
      simp only [List.length_append, List.length_cons, List.length_nil] at hle
      omega
    rw [h0, List.drop_zero]
  · rw [if_neg hle]
    congr 1
    simp only [List.length_append, List.length_cons, List.length_nil]

/-- Length after a deque append: `min (length + 1) L`. -/
theorem dequeAppend_length {α : Type} (L : ℕ) (h : List α) (b : α) :
    (dequeAppend L h b).length = min (h.length + 1) L := by
  rw [dequeAppend_eq_drop, List.length_drop, List.length_append]
  simp only [List.length_cons, List.length_nil]
  omega

/-- Folding deque appends from the empty history keeps exactly the most
recent `L` elements in arrival order. -/
theorem foldl_dequeAppend_suffix {α : Type} (L : ℕ) (bs : List α) :
    ∀ (h0 : List α), h0.length ≤ L →
      bs.foldl (dequeAppend L) h0 = (h0 ++ bs).drop ((h0.length + bs.length) - L) := by
  induction bs with
  | nil =>
    intro h0 hle
    rw [List.foldl_nil, List.append_nil]
    have h0' : h0.length - L = 0 := by omega
    simp [h0']
  | cons b tl ih =>
    intro h0 hle
    have hlen : (dequeAppend L h0 b).length ≤ L := by
      rw [dequeAppend_length]; omega
    rw [List.foldl_cons, ih _ hlen, dequeAppend_length, dequeAppend_eq_drop]
    have hk : h0.length + 1 - L ≤ (h0 ++ [b]).length := by
      simp only [List.length_append, List.length_cons, List.length_nil]
      omega
    rw [← List.drop_append_of_le_length hk, List.drop_drop]
    have hassoc : (h0 ++ [b]) ++ tl = h0 ++ b :: tl := by
      rw [List.append_assoc, List.singleton_append]
    rw [hassoc]
    congr 1
    simp only [List.length_cons]
    omega

/-- Claim C7. Folding `MarketScanner.append_ohlc_bar` with capacity `L` over
`N` arriving bars from an empty history leaves exactly the most recent
`min N L` bars in arrival order (the oldest evicted first), and no append can
ever make the history exceed the capacity. -/
theorem append_ohlc_bar_history_bound (L : ℕ) (bs : List OhlcBar) :
    (bs.foldl (MarketScanner.append_ohlc_bar L) []).length = min bs.length L ∧
    bs.foldl (MarketScanner.append_ohlc_bar L) [] = bs.drop (bs.length - L) ∧
    ∀ (h : List OhlcBar) (b : OhlcBar), h.length ≤ L →
      (MarketScanner.append_ohlc_bar L h b).length ≤ L := by
  have hcontent : bs.foldl (MarketScanner.append_ohlc_bar L) [] = bs.drop (bs.length - L) := by
    have := foldl_dequeAppend_suffix L bs [] (by simp)
    simpa [MarketScanner.append_ohlc_bar] using this
  refine ⟨?_, hcontent, ?_⟩
  · rw [hcontent, List.length_drop]
    omega
  · intro h b hle
    have := dequeAppend_length L h b
    simp only [MarketScanner.append_ohlc_bar]
    omega

/-- Witness for C7: with capacity 2, three appends keep the last two bars. -/
theorem append_ohlc_bar_history_bound_witness :
    ([(⟨0, 1, 2, 0, 1, 10⟩ : OhlcBar), ⟨1, 1, 3, 0, 2, 11⟩, ⟨2, 2, 4, 1, 3, 12⟩].foldl
      (MarketScanner.append_ohlc_bar 2) []).length
      = min [(⟨0, 1, 2, 0, 1, 10⟩ : OhlcBar), ⟨1, 1, 3, 0, 2, 11⟩, ⟨2, 2, 4, 1, 3, 12⟩].length 2 ∧
    (MarketScanner.append_ohlc_bar 2 [(⟨0, 1, 2, 0, 1, 10⟩ : OhlcBar)] ⟨1, 1, 3, 0, 2, 11⟩).length ≤ 2 :=
  ⟨(append_ohlc_bar_history_bound 2 _).1,
   (append_ohlc_bar_history_bound 2 []).2.2 [⟨0, 1, 2, 0, 1, 10⟩] ⟨1, 1, 3, 0, 2, 11⟩ (by decide)⟩

/-- Claim C9. `VWAPCalculator.update` with a `None` price, a `None` volume,
or a non-positive volume returns `None` and leaves the whole accumulator
state unchanged (the early return precedes every mutation), so `get_vwap`
answers identically before and after the call. -/
theorem vwap_update_invalid_noop (s : VWAPState) (price volume : Option ℚ)
    (h : price = none ∨ volume = none ∨ ∃ v, volume = some v ∧ v ≤ 0) :
    VWAPCalculator.update s price volume = (none, s) ∧
    VWAPCalculator.get_vwap (VWAPCalculator.update s price volume).2
      = VWAPCalculator.get_vwap s := by
  have hu : VWAPCalculator.update s price volume = (none, s) := by
    rcases h with h | h | ⟨v, hv, hle⟩
    · subst h
      cases volume <;> rfl
    · subst h
      cases price <;> rfl
    · subst hv
      cases price with
      | none => rfl
      | some p => simp [VWAPCalculator.update, hle]
  exact ⟨hu, by rw [hu]⟩

/-- Witness for C9: zero volume on a fresh unbounded accumulator is a no-op
returning None. -/
theorem vwap_update_invalid_noop_witness :
    VWAPCalculator.update ⟨none, 7, 0, 0, [], [], []⟩ (some 10) (some 0)
      = (none, ⟨none, 7, 0, 0, [], [], []⟩) :=
  (vwap_update_invalid_noop ⟨none, 7, 0, 0, [], [], []⟩ (some 10) (some 0)
    (Or.inr (Or.inr ⟨0, rfl, le_refl 0⟩))).1

/-- Every per-bar true range is non-negative (it dominates an absolute value). -/
theorem true_range_nonneg (highs lows closes : List ℚ) :
    ∀ x ∈ compute_true_range highs lows closes, 0 ≤ x := by
  intro x hx
  unfold compute_true_range at hx
  split at hx
  · simp at hx
  · simp only [List.mem_map] at hx
    obtain ⟨j, hj, rfl⟩ := hx
    exact le_trans (abs_nonneg _) (le_trans (le_max_left _ _) (le_max_right _ _))

/-- A defined ATR is non-negative (mean of non-negative true ranges). -/
theorem atr_nonneg (highs lows closes : List ℚ) (period : ℕ) (a : ℚ)
    (h : compute_atr highs lows closes period = some a) : 0 ≤ a := by
  simp only [compute_atr] at h
  split at h
  · exact absurd h (by simp)
  · injection h with h
    subst h
    apply div_nonneg
    · apply List.sum_nonneg
      intro x hx
      exact true_range_nonneg highs lows closes x (List.mem_of_mem_drop hx)
    · exact Nat.cast_nonneg period

/-- Every `plus_dm` entry is non-negative by construction. -/
theorem dm_fst_nonneg (highs lows : List ℚ) :
    ∀ pr ∈ dm_list highs lows, 0 ≤ pr.1 ∧ 0 ≤ pr.2 := by
  intro pr hpr
  unfold dm_list at hpr
  simp only [List.mem_map] at hpr
  obtain ⟨j, hj, rfl⟩ := hpr
  constructor
  · dsimp only
    split
    · next hcond => exact le_of_lt hcond.2
    · exact le_refl 0
  · dsimp only
    split
    · next hcond => exact le_of_lt hcond.2
    · exact le_refl 0

/-- With a positive ATR, `plus_di` is non-negative. -/
theorem plus_di_val_nonneg (highs lows : List ℚ) (period : ℕ) (atr : ℚ)
    (hatr : 0 < atr) : 0 ≤ plus_di_val highs lows period atr := by
  unfold plus_di_val
  apply mul_nonneg _ (by norm_num)
  apply div_nonneg _ (le_of_lt hatr)
  apply List.sum_nonneg
  intro x hx
  have hx' := List.mem_of_mem_drop hx
  simp only [List.mem_map] at hx'
  obtain ⟨pr, hpr, rfl⟩ := hx'
  exact (dm_fst_nonneg highs lows pr hpr).1

/-- With a positive ATR, `minus_di` is non-negative. -/
theorem minus_di_val_nonneg (highs lows : List ℚ) (period : ℕ) (atr : ℚ)
    (hatr : 0 < atr) : 0 ≤ minus_di_val highs lows period atr := by
  unfold minus_di_val
  apply mul_nonneg _ (by norm_num)
  apply div_nonneg _ (le_of_lt hatr)
  apply List.sum_nonneg
  intro x hx
  have hx' := List.mem_of_mem_drop hx
  simp only [List.mem_map] at hx'
  obtain ⟨pr, hpr, rfl⟩ := hx'
  exact (dm_fst_nonneg highs lows pr hpr).2

/-- Claim C10. `compute_adx` (period 14) over equal-length series: with fewer
than period+1 bars it returns None; with an unavailable or zero ATR it
returns None; when the two directional indicators sum to zero it returns 0;
and every defined value lies in the closed interval [0, 100] (no division by
zero is ever performed: both divisions are guarded). -/
theorem compute_adx_props (highs lows closes : List ℚ)
    (hl : lows.length = highs.length) (hc : closes.length = highs.length) :
    (highs.length < 14 + 1 → compute_adx highs lows closes 14 = none) ∧
    (compute_atr highs lows closes 14 = none → compute_adx highs lows closes 14 = none) ∧
    (∀ a, compute_atr highs lows closes 14 = some a → a = 0 →
      compute_adx highs lows closes 14 = none) ∧
    (∀ a, compute_atr highs lows closes 14 = some a → a ≠ 0 →
      ¬ highs.length < 14 + 1 →
      plus_di_val highs lows 14 a + minus_di_val highs lows 14 a = 0 →
      compute_adx highs lows closes 14 = some 0) ∧
    (∀ x, compute_adx highs lows closes 14 = some x → 0 ≤ x ∧ x ≤ 100) := by
  refine ⟨?_, ?_, ?_, ?_, ?_⟩
  · intro h
    simp [compute_adx, h]
  · intro h
    by_cases h15 : highs.length < 14 + 1
    · simp [compute_adx, h15]
    · simp [compute_adx, h15, h]
  · intro a h h0
    by_cases h15 : highs.length < 14 + 1
    · simp [compute_adx, h15]
    · simp [compute_adx, h15, h, h0]
  · intro a h hne h15 hsum
    simp [compute_adx, h15, h, hne, hsum]
  · intro x hx
    by_cases h15 : highs.length < 14 + 1
    · simp [compute_adx, h15] at hx
    · cases heq : compute_atr highs lows closes 14 with
      | none => simp [compute_adx, h15, heq] at hx
      | some atr =>
        by_cases h0 : atr = 0
        · simp [compute_adx, h15, heq, h0] at hx
        · have hatr : 0 < atr :=
            lt_of_le_of_ne (atr_nonneg highs lows closes 14 atr heq) (Ne.symm h0)
          have hp := plus_di_val_nonneg highs lows 14 atr hatr
          have hm := minus_di_val_nonneg highs lows 14 atr hatr
          by_cases hsum : plus_di_val highs lows 14 atr + minus_di_val highs lows 14 atr = 0
          · simp [compute_adx, h15, heq, h0, hsum] at hx
            subst hx
            norm_num
          · simp [compute_adx, h15, heq, h0, hsum] at hx
            subst hx
            have hpos : 0 < plus_di_val highs lows 14 atr + minus_di_val highs lows 14 atr :=
              lt_of_le_of_ne (by linarith) (Ne.symm hsum)
            have habs : |plus_di_val highs lows 14 atr - minus_di_val highs lows 14 atr|
                ≤ plus_di_val highs lows 14 atr + minus_di_val highs lows 14 atr := by
              rw [abs_sub_le_iff]
              constructor <;> linarith
            constructor
            · exact mul_nonneg (div_nonneg (abs_nonneg _) (le_of_lt hpos)) (by norm_num)
            · have h1 : |plus_di_val highs lows 14 atr - minus_di_val highs lows 14 atr|
                  / (plus_di_val highs lows 14 atr + minus_di_val highs lows 14 atr) ≤ 1 :=
                (div_le_one hpos).mpr habs
              calc |plus_di_val highs lows 14 atr - minus_di_val highs lows 14 atr|
                  / (plus_di_val highs lows 14 atr + minus_di_val highs lows 14 atr) * 100
                  ≤ 1 * 100 := by
                    exact mul_le_mul_of_nonneg_right h1 (by norm_num)
                _ = 100 := by norm_num

set_option maxRecDepth 100000 in
/-- Witness for C10: on the 16-bar rising fixture the ADX evaluates to 100,
which the bound theorem confirms lies in [0, 100]. -/
theorem compute_adx_props_witness :
    compute_adx ((List.range 16).map (fun i => (i : ℚ)))
        ((List.range 16).map (fun i => (i : ℚ)))
        ((List.range 16).map (fun i => (i : ℚ))) 14 = some 100 ∧
    (0 : ℚ) ≤ 100 ∧ (100 : ℚ) ≤ 100 :=
  ⟨by decide,
   (compute_adx_props ((List.range 16).map (fun i => (i : ℚ)))
     ((List.range 16).map (fun i => (i : ℚ)))
     ((List.range 16).map (fun i => (i : ℚ))) rfl rfl).2.2.2.2 100 (by decide)⟩
